import Mathlib

/-!
Shallow embedding of `iqair_exporter.go` (Packetslave/iqair_exporter).

The program is a Prometheus collector for an iqAir air-quality monitor.
Go values are embedded as follows: `int` becomes `Int`, `float64` becomes
`Rat` (JSON numbers carry exact decimal values well inside the range where
IEEE-754 doubles are exact for the inputs of interest), fallible paths
return `Except`/`Option`, Prometheus counters become `Nat` fields of the
exporter state, and the metric channel `ch` becomes the ordered list of
metrics sent on it.  Logging calls (`e.logger.Log ...`) have no effect on
any metric or counter and are therefore not represented.
-/

/-- A JSON document, as produced by parsing a response body.  Mirrors the
value universe of `encoding/json`; numbers carry exact rational values. -/
inductive Json where
  | null : Json
  | bool (b : Bool) : Json
  | num (q : Rat) : Json
  | str (s : String) : Json
  | arr (elems : List Json) : Json
  | obj (fields : List (String × Json)) : Json

/-- Field lookup as `encoding/json` resolves object keys while filling a
struct: when a key occurs more than once, the last occurrence wins. -/
def Json.lookupField (fields : List (String × Json)) (key : String) : Option Json :=
  match fields with
  | [] => none
  | (k, v) :: rest =>
    match Json.lookupField rest key with
    | some v2 => some v2
    | none => if k = key then some v else none

/-- `type APIData struct` from the source: the five reading fields, with
their JSON tags `co`, `p2`, `p1`, `tp`, `hm`. -/
structure APIData where
  CO2 : Int
  P25 : Int
  P10 : Int
  Temperature : Rat
  Humidity : Int
deriving DecidableEq

/-- `type APIResponse struct`: the envelope, one nested object under the
JSON key `current`. -/
structure APIResponse where
  Current : APIData
deriving DecidableEq

/-- The zero value of `APIData`, as Go leaves a struct field that the JSON
body never mentions. -/
def APIData.zero : APIData := ⟨0, 0, 0, 0, 0⟩

/-- Decoding one `int`-typed struct field from an object: a missing key or
JSON `null` leaves the zero value, an integral number is taken exactly, and
any other value is a decode error (`encoding/json` rejects fractional
numbers and non-numbers for an `int` target). -/
def decodeIntField (fields : List (String × Json)) (key : String) : Except Unit Int :=
  match Json.lookupField fields key with
  | none => .ok 0
  | some .null => .ok 0
  | some (.num q) => if q.den = 1 then .ok q.num else .error ()
  | some _ => .error ()

/-- Decoding one `float64`-typed struct field: a missing key or JSON `null`
leaves zero, a number is taken exactly, anything else is a decode error. -/
def decodeFloatField (fields : List (String × Json)) (key : String) : Except Unit Rat :=
  match Json.lookupField fields key with
  | none => .ok 0
  | some .null => .ok 0
  | some (.num q) => .ok q
  | some _ => .error ()

/-- Decoding a JSON value into `APIData`: lenient field-wise decode with
zero defaults, matching `json.Unmarshal` into the tagged struct. -/
def decodeAPIData (j : Json) : Except Unit APIData :=
  match j with
  | .null => .ok APIData.zero
  | .obj fields => do
    let co ← decodeIntField fields "co"
    let p2 ← decodeIntField fields "p2"
    let p1 ← decodeIntField fields "p1"
    let tp ← decodeFloatField fields "tp"
    let hm ← decodeIntField fields "hm"
    pure ⟨co, p2, p1, tp, hm⟩
  | _ => .error ()

/-- `json.Unmarshal(body, &parsed)` with `parsed : APIResponse`.  The input
is `none` when the body is not valid JSON at all (a syntax error), and
`some j` when it parses to the document `j`.  A top-level value that is not
an object (and not `null`) is a decode error; an object without a
`current` key leaves the zero envelope. -/
def unmarshalAPIResponse (body : Option Json) : Except Unit APIResponse :=
  match body with
  | none => .error ()
  | some .null => .ok ⟨APIData.zero⟩
  | some (.obj fields) =>
    match Json.lookupField fields "current" with
    | none => .ok ⟨APIData.zero⟩
    | some jc => (decodeAPIData jc).map (fun d => ⟨d⟩)
  | some _ => .error ()

/-- The logger collaborator.  Its calls only write log lines, so it carries
no data the metric path depends on. -/
abbrev Logger := Unit

/-- `type Exporter struct`: the upstream URI and the two Prometheus
counters.  The `sync.RWMutex` field serializes invocations and holds no
data; the logger is side-effect-only; neither influences any value below,
so the state is the URI plus the two counter values. -/
structure Exporter where
  URI : String
  totalScrapes : Nat
  jsonParseFailures : Nat
deriving DecidableEq

/-- `NewExporter(uri, timeout, logger)`: unconditionally returns a freshly
allocated exporter (counters at zero) and a nil error.  Note that the
`timeout` argument is not stored in the struct and is not used anywhere in
the function body. -/
def NewExporter (uri : String) (timeout : Nat) (logger : Logger) :
    Option Exporter × Option String :=
  (some { URI := uri, totalScrapes := 0, jsonParseFailures := 0 }, none)

/-- The identifiers of the Prometheus descriptors the source declares:
`iqair_up`, the five reading gauges, and the two counters. -/
inductive MetricId where
  | scrapesTotal : MetricId
  | parseFailuresTotal : MetricId
  | up : MetricId
  | co2 : MetricId
  | p25 : MetricId
  | p10 : MetricId
  | temperature : MetricId
  | humidity : MetricId
deriving DecidableEq

/-- One metric sample sent on the collection channel. -/
structure Metric where
  id : MetricId
  value : Rat
deriving DecidableEq

/-- `Exporter.Describe`: the source sends exactly three descriptors on the
channel, in this order: `iqAirUp`, `e.totalScrapes.Desc()`,
`e.jsonParseFailures.Desc()`.  The five reading-gauge descriptors are never
sent. -/
def Exporter.Describe (e : Exporter) : List MetricId :=
  [.up, .scrapesTotal, .parseFailuresTotal]

/-- What one upstream fetch attempt produced, the input `scrape` branches
on: `http.Get` returned an error, `io.ReadAll` returned an error, or a
body was read in full (`some j` when the body is valid JSON parsing to
`j`, `none` when it is not valid JSON). -/
inductive UpstreamResult where
  | transportError : UpstreamResult
  | readError : UpstreamResult
  | body (json : Option Json) : UpstreamResult

/-- `Exporter.scrape`: increments `totalScrapes` unconditionally, then
returns `(up, result)` exactly as the source does: `(0, nil)` on a
transport error, a body-read error, or an unmarshal error, and
`(1, &parsed.Current)` on success.  Note that no branch increments
`jsonParseFailures`: the source contains no `Inc` call on that counter. -/
def Exporter.scrape (e : Exporter) (u : UpstreamResult) :
    Exporter × Rat × Option APIData :=
  let e2 := { e with totalScrapes := e.totalScrapes + 1 }
  match u with
  | .transportError => (e2, 0, none)
  | .readError => (e2, 0, none)
  | .body b =>
    match unmarshalAPIResponse b with
    | .error _ => (e2, 0, none)
    | .ok parsed => (e2, 1, some parsed.Current)

/-- The observable outcome of one `Collect` invocation: the metrics sent on
`ch` in order before control left the function, and whether the invocation
panicked (a nil-pointer dereference) instead of returning normally. -/
structure CollectResult where
  emitted : List Metric
  panicked : Bool
deriving DecidableEq

/-- `Exporter.Collect`: runs `scrape`, then sends `totalScrapes`,
`jsonParseFailures` and the `up` gauge, then builds the five reading gauges
from `result`.  When `scrape` failed, `result` is the nil pointer and the
very next expression, `float64(result.CO2)`, dereferences it: the Go
runtime panics after the first three sends.  When `scrape` succeeded all
eight metrics are sent and the call returns normally. -/
def Exporter.Collect (e : Exporter) (u : UpstreamResult) :
    Exporter × CollectResult :=
  match e.scrape u with
  | (e2, up, result) =>
    let pre : List Metric :=
      [⟨.scrapesTotal, (e2.totalScrapes : Rat)⟩,
       ⟨.parseFailuresTotal, (e2.jsonParseFailures : Rat)⟩,
       ⟨.up, up⟩]
    match result with
    | none => (e2, ⟨pre, true⟩)
    | some r =>
      (e2, ⟨pre ++
        [⟨.co2, (r.CO2 : Rat)⟩,
         ⟨.p25, (r.P25 : Rat)⟩,
         ⟨.p10, (r.P10 : Rat)⟩,
         ⟨.temperature, r.Temperature⟩,
         ⟨.humidity, (r.Humidity : Rat)⟩], false⟩)

/-- The client-side timeout, in seconds, of the HTTP client that performs
the fetch: `scrape` calls `http.Get(e.URI)`, which uses
`http.DefaultClient`, whose `Timeout` field is zero, meaning no timeout.
The exporter neither stores nor applies the timeout passed to
`NewExporter`. -/
def scrapeClientTimeout : Nat := 0

/-- The scrape-timeout value `main` passes to `NewExporter`:
`10*time.Second`, i.e. 10 seconds. -/
def mainScrapeTimeout : Nat := 10

/-- A convenient JSON envelope with all five reading fields present as
numbers, used to state the valid-envelope claims. -/
def envelope (co p2 p1 : Int) (tp : Rat) (hm : Int) : Json :=
  .obj [("current", .obj
    [("co", .num (co : Rat)), ("p2", .num (p2 : Rat)), ("p1", .num (p1 : Rat)),
     ("tp", .num tp), ("hm", .num (hm : Rat))])]

/-- C1: on a transport failure, `Collect` does increment `totalScrapes` and
leave `jsonParseFailures` unchanged and does emit `up = 0`, but it then
panics on the nil `*APIData` before any of the five reading gauges is
sent, so it neither completes without fault nor emits the gauges at zero. -/
theorem collect_transport_failure_panics (e : Exporter) :
    (e.Collect .transportError).1.totalScrapes = e.totalScrapes + 1 ∧
    (e.Collect .transportError).1.jsonParseFailures = e.jsonParseFailures ∧
    (e.Collect .transportError).2.emitted =
      [⟨.scrapesTotal, ((e.totalScrapes + 1 : Nat) : Rat)⟩,
       ⟨.parseFailuresTotal, (e.jsonParseFailures : Rat)⟩,
       ⟨.up, 0⟩] ∧
    (e.Collect .transportError).2.panicked = true := by
  refine ⟨rfl, rfl, rfl, rfl⟩

/-- C2: on a body that is not valid JSON, `Collect` increments
`totalScrapes` but leaves `jsonParseFailures` unchanged (the source never
increments that counter), emits `up = 0`, and then panics on the nil
`*APIData` before any reading gauge is sent. -/
theorem collect_invalid_json_panics (e : Exporter) :
    (e.Collect (.body none)).1.totalScrapes = e.totalScrapes + 1 ∧
    (e.Collect (.body none)).1.jsonParseFailures = e.jsonParseFailures ∧
    (e.Collect (.body none)).2.emitted =
      [⟨.scrapesTotal, ((e.totalScrapes + 1 : Nat) : Rat)⟩,
       ⟨.parseFailuresTotal, (e.jsonParseFailures : Rat)⟩,
       ⟨.up, 0⟩] ∧
    (e.Collect (.body none)).2.panicked = true := by
  refine ⟨rfl, rfl, rfl, rfl⟩

/-- C3: `Describe` sends exactly three descriptors, `iqair_up`,
`iqair_exporter_scrapes_total` and
`iqair_exporter_json_parse_failures_total`; it does not send the five
reading-gauge descriptors, so the emitted set has three members, not
eight. -/
theorem describe_emits_three_not_eight (e : Exporter) :
    e.Describe = [.up, .scrapesTotal, .parseFailuresTotal] ∧
    e.Describe.length = 3 ∧
    MetricId.co2 ∉ e.Describe ∧ MetricId.p25 ∉ e.Describe ∧
    MetricId.p10 ∉ e.Describe ∧ MetricId.temperature ∉ e.Describe ∧
    MetricId.humidity ∉ e.Describe := by
  refine ⟨rfl, rfl, ?_, ?_, ?_, ?_, ?_⟩ <;> simp [Exporter.Describe]

/-- C6: on the body `{}` (the empty JSON object) the lenient decode
succeeds with every field at its zero value, and `Collect` returns
normally, emitting `up = 1` and all five reading gauges at 0. -/
theorem collect_empty_object_up_one_zero_gauges (e : Exporter) :
    (e.Collect (.body (some (.obj [])))).2 =
      ⟨[⟨.scrapesTotal, ((e.totalScrapes + 1 : Nat) : Rat)⟩,
        ⟨.parseFailuresTotal, (e.jsonParseFailures : Rat)⟩,
        ⟨.up, 1⟩, ⟨.co2, 0⟩, ⟨.p25, 0⟩, ⟨.p10, 0⟩,
        ⟨.temperature, 0⟩, ⟨.humidity, 0⟩], false⟩ := by
  simp [Exporter.Collect, Exporter.scrape, unmarshalAPIResponse,
    Json.lookupField, APIData.zero]

/-- C9: for every URI, timeout and logger, `NewExporter` returns a non-nil
exporter (with the given URI and both counters at zero) together with a
nil error; construction never fails. -/
theorem new_exporter_never_fails (uri : String) (timeout : Nat) (logger : Logger) :
    (NewExporter uri timeout logger).1 =
      some { URI := uri, totalScrapes := 0, jsonParseFailures := 0 } ∧
    (NewExporter uri timeout logger).2 = none := by
  exact ⟨rfl, rfl⟩

/-- C4: for every envelope whose five reading fields are present as
numbers, `Collect` emits `up = 1` and the five gauges carrying exactly
those field values; in particular the body
current: co 410, p2 5, p1 12, tp 21.5, hm 40 yields
up=1, co2=410, p25=5, p10=12, temperature=21.5, humidity=40. -/
theorem collect_valid_envelope_exact_values :
    (∀ (e : Exporter) (co p2 p1 hm : Int) (tp : Rat),
      (e.Collect (.body (some (envelope co p2 p1 tp hm)))).2 =
        ⟨[⟨.scrapesTotal, ((e.totalScrapes + 1 : Nat) : Rat)⟩,
          ⟨.parseFailuresTotal, (e.jsonParseFailures : Rat)⟩,
          ⟨.up, 1⟩, ⟨.co2, (co : Rat)⟩, ⟨.p25, (p2 : Rat)⟩, ⟨.p10, (p1 : Rat)⟩,
          ⟨.temperature, tp⟩, ⟨.humidity, (hm : Rat)⟩], false⟩) ∧
    ((Exporter.mk "http://device" 0 0).Collect
        (.body (some (envelope 410 5 12 (43/2 : Rat) 40)))).2 =
      ⟨[⟨.scrapesTotal, 1⟩, ⟨.parseFailuresTotal, 0⟩, ⟨.up, 1⟩,
        ⟨.co2, 410⟩, ⟨.p25, 5⟩, ⟨.p10, 12⟩, ⟨.temperature, (43/2 : Rat)⟩,
        ⟨.humidity, 40⟩], false⟩ := by
  have hA : ∀ (e : Exporter) (co p2 p1 hm : Int) (tp : Rat),
      (e.Collect (.body (some (envelope co p2 p1 tp hm)))).2 =
        ⟨[⟨.scrapesTotal, ((e.totalScrapes + 1 : Nat) : Rat)⟩,
          ⟨.parseFailuresTotal, (e.jsonParseFailures : Rat)⟩,
          ⟨.up, 1⟩, ⟨.co2, (co : Rat)⟩, ⟨.p25, (p2 : Rat)⟩, ⟨.p10, (p1 : Rat)⟩,
          ⟨.temperature, tp⟩, ⟨.humidity, (hm : Rat)⟩], false⟩ := by
    intro e co p2 p1 hm tp
    simp [Exporter.Collect, Exporter.scrape, unmarshalAPIResponse, envelope,
      Json.lookupField, decodeAPIData, decodeIntField, decodeFloatField,
      Except.map, Except.bind, Except.pure, bind, pure,
      Rat.den_intCast, Rat.num_intCast]
  refine ⟨hA, ?_⟩
  have h2 := hA ⟨"http://device", 0, 0⟩ 410 5 12 40 (43/2 : Rat)
  simpa using h2

/-- C5: the gauge sample up=1 is emitted exactly when the scrape fully
succeeded (the fetched body unmarshalled into the envelope, so `scrape`
returned a non-nil reading); and whenever the scrape failed, `Collect`
panics on the nil reading instead of reporting the five gauges as zero. -/
theorem up_one_iff_scrape_success (e : Exporter) (u : UpstreamResult) :
    ((⟨.up, (1 : Rat)⟩ : Metric) ∈ (e.Collect u).2.emitted ↔
      ((e.scrape u).2.2).isSome = true) ∧
    (e.Collect u).2.panicked = ((e.scrape u).2.2).isNone := by
  rcases u with _ | _ | b
  · constructor
    · simp [Exporter.Collect, Exporter.scrape]
    · rfl
  · constructor
    · simp [Exporter.Collect, Exporter.scrape]
    · rfl
  · rcases hm : unmarshalAPIResponse b with err | r
    · constructor
      · simp [Exporter.Collect, Exporter.scrape, hm]
      · simp [Exporter.Collect, Exporter.scrape, hm]
    · constructor
      · simp [Exporter.Collect, Exporter.scrape, hm]
      · simp [Exporter.Collect, Exporter.scrape, hm]

/-- C7 counterexample: the HTTP client that performs the fetch has no
client-side timeout at all (`http.Get` uses the default client, timeout
zero), so the fetch is not bounded by the 10-second duration `main`
supplies to `NewExporter`. -/
theorem scrape_timeout_not_enforced : scrapeClientTimeout ≠ mainScrapeTimeout := by
  decide

/-- C7 amended: `NewExporter` ignores its timeout argument entirely (its
result is the same for every timeout), the exporter stores no timeout
field, and the fetching client has client-side timeout zero, i.e. the
outbound GET is unbounded. -/
theorem new_exporter_ignores_timeout (uri : String) (t t2 : Nat) (l l2 : Logger) :
    NewExporter uri t l = NewExporter uri t2 l2 ∧ scrapeClientTimeout = 0 :=
  ⟨rfl, rfl⟩

/-- C10: whenever the scrape succeeds (the body unmarshalled, so `scrape`
returned a non-nil reading), `Collect` returns normally and emits exactly
eight samples, in the fixed order totalScrapes, jsonParseFailures, up,
co2, p25, p10, temperature, humidity. -/
theorem collect_success_emits_eight_in_order (e : Exporter) (u : UpstreamResult)
    (h : ((e.scrape u).2.2).isSome = true) :
    (e.Collect u).2.emitted.map Metric.id =
      [.scrapesTotal, .parseFailuresTotal, .up, .co2, .p25, .p10,
       .temperature, .humidity] ∧
    (e.Collect u).2.emitted.length = 8 ∧
    (e.Collect u).2.panicked = false := by
  rcases u with _ | _ | b
  · simp [Exporter.scrape] at h
  · simp [Exporter.scrape] at h
  · rcases hm : unmarshalAPIResponse b with err | r
    · simp [Exporter.scrape, hm] at h
    · simp [Exporter.Collect, Exporter.scrape, hm]

/-- Witness for C10: the successful scrape of the body `{}` emits the
eight samples in the fixed order. -/
theorem collect_success_emits_eight_in_order_witness :
    ((Exporter.mk "http://device" 0 0).Collect (.body (some (.obj [])))).2.emitted.map
        Metric.id =
      [.scrapesTotal, .parseFailuresTotal, .up, .co2, .p25, .p10,
       .temperature, .humidity] ∧
    ((Exporter.mk "http://device" 0 0).Collect (.body (some (.obj [])))).2.emitted.length
      = 8 ∧
    ((Exporter.mk "http://device" 0 0).Collect (.body (some (.obj [])))).2.panicked
      = false :=
  collect_success_emits_eight_in_order ⟨"http://device", 0, 0⟩
    (.body (some (.obj []))) (by rfl)
